import Mathlib

/-!
# Verification of the Argo workflow controller pod reconciler

Shallow embedding of `workflow/controller/controller.go`: the pure decision
logic of `inferFailedReason`, `applyUpdates`, `handlePodUpdate` and
`updateConfig`, with cluster I/O (workflow get/update, pod labelling),
JSON/YAML decoding and the wall clock passed in explicitly, and Go map
iteration order (which Go leaves unspecified) modelled as a reordering
function parameter.
-/

namespace Argo

/-- Modelled from the spec: `wfv1.NodePhase` of the workflow API package
(not under the sources here). §3: phase ∈ {Pending, Running, Succeeded,
Skipped, Failed, Error}. -/
inductive NodePhase
  | Pending
  | Running
  | Succeeded
  | Skipped
  | Failed
  | Error
deriving DecidableEq, Repr

/-- Modelled from the spec: terminal node phases. §3: "Succeeded/Skipped/
Failed/Error are terminal"; this is `NodeStatus.Completed()` of the
workflow API package, which is not under the sources here. -/
def NodePhase.Completed : NodePhase → Bool
  | .Succeeded | .Skipped | .Failed | .Error => true
  | _ => false

/-- `apiv1.PodPhase` (external k8s API): the phases the switch in
`handlePodUpdate` distinguishes, plus `Unknown` standing for any other
value (the `default` arm). -/
inductive PodPhase
  | Pending
  | Running
  | Succeeded
  | Failed
  | Unknown
deriving DecidableEq, Repr

/-- `state.terminated` of a k8s container status: the fields the controller
reads (`exitCode`, `message`, `finishedAt`).  Timestamps are modelled as
`Nat`, with `0` playing the role of the zero `metav1.Time` and
`Time.After` being `>`. -/
structure ContainerStateTerminated where
  exitCode : Int
  message : String
  finishedAt : Nat
deriving DecidableEq, Repr

/-- A k8s container status as the controller consumes it: `name`, `ready`,
and the optional `state.terminated`. -/
structure ContainerStatus where
  name : String
  ready : Bool
  terminated : Option ContainerStateTerminated
deriving DecidableEq, Repr

/-- Modelled from the spec: `wfv1.Outputs` (workflow API package, not under
the sources here) is opaque to the core (§3: "optional structured result");
we carry the decoded value abstractly by its content. -/
structure Outputs where
  raw : String
deriving DecidableEq, Repr

/-- Modelled from the spec: `wfv1.Template` (workflow API package, not under
the sources here); the reconciler reads only its optional `daemon` field
(§3, §4.F). -/
structure Template where
  daemon : Option Bool
deriving DecidableEq, Repr

/-- The pod fields `handlePodUpdate`, `inferFailedReason` and `applyUpdates`
read.  Label and annotation lookups in the Go code are at fixed keys
(`common.LabelKeyCompleted`, `common.LabelKeyWorkflow`,
`common.AnnotationKeyTemplate`, `common.AnnotationKeyOutputs`,
`common.AnnotationKeyNodeMessage`), so each lookup is modelled as an
`Option String` field (`none` = key absent from the map). -/
structure Pod where
  name : String
  ns : String
  labelCompleted : Option String
  labelWorkflow : Option String
  annotTemplate : Option String
  annotOutputs : Option String
  annotNodeMessage : Option String
  statusPhase : PodPhase
  statusMessage : String
  statusPodIP : String
  initContainerStatuses : List ContainerStatus
  containerStatuses : List ContainerStatus
deriving DecidableEq, Repr

/-- Modelled from the spec: the `wfv1.NodeStatus` fields the core
reads/writes (§3).  `finishedAt` is a `Nat` timestamp with `0` as the zero
time (`IsZero`). -/
structure NodeStatus where
  phase : NodePhase
  daemoned : Option Bool
  podIP : String
  outputs : Option Outputs
  message : String
  finishedAt : Nat
deriving DecidableEq, Repr

/-- Modelled from the spec: `NodeStatus.Completed()` of the workflow API
package (not under the sources here): the phase is terminal. -/
def NodeStatus.Completed (n : NodeStatus) : Bool :=
  n.phase.Completed

/-- Modelled from the spec: `NodeStatus.IsDaemoned()` of the workflow API
package (not under the sources here).  §3 marks `daemoned` as
boolean-by-presence and §4.F normalises an explicit `false` to absent, so a
node is daemoned exactly when the flag is present and true. -/
def NodeStatus.IsDaemoned (n : NodeStatus) : Bool :=
  match n.daemoned with
  | none => false
  | some b => b

/-- Modelled from the spec: `common.MainContainerName` (constants package,
not under the sources here); §4.F calls the main container `main`. -/
def MainContainerName : String := "main"

/-- Modelled from the spec: `common.WaitContainerName` (constants package,
not under the sources here); §4.F: "a container named `wait`". -/
def WaitContainerName : String := "wait"

/-- Go map assignment `m[k] = v` on an association list: replace the value
at an existing key, otherwise append.  Keys stay distinct, and the list
order stands in for an iteration order of the map. -/
def insertAssoc {α : Type} (l : List (String × α)) (k : String) (v : α) :
    List (String × α) :=
  match l with
  | [] => [(k, v)]
  | (k', v') :: rest =>
      if k' = k then (k, v) :: rest else (k', v') :: insertAssoc rest k v

/-- The `errMsg` suffix loop of `inferFailedReason`:
`for _, msg := range []string{annotatedMsg, t.Message}` appends
`": " + msg` for the first non-empty candidate. -/
def suffixFirstNonEmpty (base annotatedMsg termMsg : String) : String :=
  if annotatedMsg ≠ "" then base ++ ": " ++ annotatedMsg
  else if termMsg ≠ "" then base ++ ": " ++ termMsg
  else base

/-- The init-container loop of `inferFailedReason`: containers without a
terminated state are skipped (`continue`), as are exit code 0; the first
remaining container decides. -/
def firstFailedContainer (ctrs : List ContainerStatus) :
    Option ContainerStatus :=
  ctrs.find? fun c =>
    match c.terminated with
    | none => false
    | some t => t.exitCode ≠ 0

/-- The failure message recorded for one failed container of the main loop
of `inferFailedReason`: the `wait` container gets the "failed to save
artifacts" message with the suffix loop, others their terminated message,
or a synthesized exit-code message when it is empty. -/
def failMessageOf (annotatedMsg : String) (c : ContainerStatus)
    (t : ContainerStateTerminated) : String :=
  if c.name = WaitContainerName then
    suffixFirstNonEmpty "failed to save artifacts" annotatedMsg t.message
  else if t.message ≠ "" then t.message
  else "failed with exit code " ++ toString t.exitCode

/-- One iteration of the `failMessages` loop of `inferFailedReason`:
containers with no terminated state (`continue` with a warning) or exit
code 0 are skipped, each other container records its failure message under
its name. -/
def failMsgStep (annotatedMsg : String) (m : List (String × String))
    (c : ContainerStatus) : List (String × String) :=
  match c.terminated with
  | none => m
  | some t =>
    if t.exitCode = 0 then m
    else insertAssoc m c.name (failMessageOf annotatedMsg c t)

/-- The `failMessages` map of `inferFailedReason`, built by the loop over
`pod.Status.ContainerStatuses`. -/
def buildFailMessages (annotatedMsg : String) (ctrs : List ContainerStatus) :
    List (String × String) :=
  ctrs.foldl (failMsgStep annotatedMsg) []

/-- `inferFailedReason`, with the Go `range` over the `failMessages` map
(whose iteration order Go leaves unspecified) modelled by the reordering
function `π` applied before taking the first entry. -/
def inferFailedReasonOrd (π : List (String × String) → List (String × String))
    (pod : Pod) : NodePhase × Option Bool × String :=
  if pod.statusMessage ≠ "" then
    (.Failed, some false, pod.statusMessage)
  else
    let annotatedMsg := pod.annotNodeMessage.getD ""
    match firstFailedContainer pod.initContainerStatuses with
    | some c =>
      let t := c.terminated.getD ⟨0, "", 0⟩
      (.Error, some false,
        suffixFirstNonEmpty "failed to load artifacts" annotatedMsg t.message)
    | none =>
      let failMessages := buildFailMessages annotatedMsg pod.containerStatuses
      match failMessages.lookup MainContainerName with
      | some failMsg => (.Failed, some false, failMsg)
      | none =>
        match failMessages.lookup WaitContainerName with
        | some failMsg => (.Error, some false, failMsg)
        | none =>
          match π failMessages with
          | (_, failMsg) :: _ => (.Failed, some false, failMsg)
          | [] => (.Failed, some false, "pod failed for unknown reason")

/-- `inferFailedReason` at the declaration iteration order. -/
def inferFailedReason (pod : Pod) : NodePhase × Option Bool × String :=
  inferFailedReasonOrd id pod

/-- The phase block of `applyUpdates` (`if node.Phase != newPhase { ... }`):
a differing phase is written only when the node is not already completed.
Returns the node and whether this block set `updateNeeded`. -/
def phaseStep (node : NodeStatus) (newPhase : NodePhase) : NodeStatus × Bool :=
  if node.phase ≠ newPhase then
    if node.Completed then (node, false)
    else ({ node with phase := newPhase }, true)
  else (node, false)

/-- The daemon block of `applyUpdates`: an explicit `false` is normalised to
absent; the flag is written only on a presence flip, and the pod IP is
copied (when different) inside that same branch. -/
def daemonStep (pod : Pod) (node : NodeStatus) (newDaemonStatus : Option Bool) :
    NodeStatus × Bool :=
  match newDaemonStatus with
  | none => (node, false)
  | some b =>
    let nds : Option Bool := if b = false then none else some b
    if (nds ≠ none ∧ node.daemoned = none) ∨ (nds = none ∧ node.daemoned ≠ none) then
      let node := { node with daemoned := nds }
      let node :=
        if pod.statusPodIP ≠ node.podIP then { node with podIP := pod.statusPodIP }
        else node
      (node, true)
    else (node, false)

/-- The outputs block of `applyUpdates`: when the outputs annotation is
present and `node.Outputs` is unset, `updateNeeded` is set and the
annotation is decoded; decode failure forces `node.Phase := Error`.  JSON
decoding (`json.Unmarshal` into `wfv1.Outputs`) is passed in as
`decodeOutputs` (`none` = unmarshal error). -/
def outputsStep (decodeOutputs : String → Option Outputs) (pod : Pod)
    (node : NodeStatus) : NodeStatus × Bool :=
  match pod.annotOutputs with
  | none => (node, false)
  | some outputStr =>
    if node.outputs = none then
      match decodeOutputs outputStr with
      | none => ({ node with phase := .Error }, true)
      | some outputs => ({ node with outputs := some outputs }, true)
    else (node, false)

/-- The message block of `applyUpdates`: a non-empty differing message is
assigned; the Go code does not touch `updateNeeded` here. -/
def messageStep (node : NodeStatus) (message : String) : NodeStatus :=
  if message ≠ "" ∧ node.message ≠ message then { node with message := message }
  else node

/-- The container scans of the finishedAt block: fold
`if ctr.State.Terminated != nil && ctr.State.Terminated.FinishedAt.After(acc)`
over a container status list. -/
def latestTerminatedScan (ctrs : List ContainerStatus) (start : Nat) : Nat :=
  ctrs.foldl
    (fun acc c =>
      match c.terminated with
      | none => acc
      | some t => if t.finishedAt > acc then t.finishedAt else acc)
    start

/-- The finishedAt block of `applyUpdates`: when the node is completed and
`finishedAt` is zero, a non-daemoned node takes the latest container
terminated timestamp (init then main containers), and whatever is still
zero falls back to the wall clock `now` (`time.Now().UTC()`). -/
def finishedAtStep (now : Nat) (pod : Pod) (node : NodeStatus) :
    NodeStatus × Bool :=
  if node.Completed ∧ node.finishedAt = 0 then
    let node :=
      if ¬node.IsDaemoned then
        { node with
          finishedAt :=
            latestTerminatedScan pod.containerStatuses
              (latestTerminatedScan pod.initContainerStatuses node.finishedAt) }
      else node
    let node :=
      if node.finishedAt = 0 then { node with finishedAt := now } else node
    (node, true)
  else (node, false)

/-- `applyUpdates`: the five blocks in source order, threading the node and
OR-ing the `updateNeeded` assignments (each Go assignment is `= true`, so
the threaded variable is the disjunction of the block flags). -/
def applyUpdates (decodeOutputs : String → Option Outputs) (now : Nat)
    (pod : Pod) (node : NodeStatus) (newPhase : NodePhase)
    (newDaemonStatus : Option Bool) (message : String) : NodeStatus × Bool :=
  let p1 := phaseStep node newPhase
  let p2 := daemonStep pod p1.1 newDaemonStatus
  let p3 := outputsStep decodeOutputs pod p2.1
  let n4 := messageStep p3.1 message
  let p5 := finishedAtStep now pod n4
  (p5.1, p1.2 || p2.2 || p3.2 || p5.2)

/-- The node state right before the finishedAt block of `applyUpdates`:
the first four blocks composed in source order. -/
def preFinishedNode (decodeOutputs : String → Option Outputs) (pod : Pod)
    (node : NodeStatus) (newPhase : NodePhase) (newDaemonStatus : Option Bool)
    (message : String) : NodeStatus :=
  messageStep
    (outputsStep decodeOutputs pod
      (daemonStep pod (phaseStep node newPhase).1 newDaemonStatus).1).1
    message

/-- The latest `terminated.finishedAt` across the pod's init and main
containers, as a maximum (0 when no container has a terminated state). -/
def latestTerminatedAt (pod : Pod) : Nat :=
  ((pod.initContainerStatuses ++ pod.containerStatuses).filterMap
    (fun c => c.terminated.map (fun t => t.finishedAt))).foldl max 0

/-- A workflow as the reconciler touches it: its name and its
`status.nodes` map from node id (the owning pod's name) to `NodeStatus`,
as an association list. -/
structure Workflow where
  name : String
  nodes : List (String × NodeStatus)
deriving DecidableEq, Repr

/-- The cluster collaborators of `handlePodUpdate`, passed in explicitly:
`GetWorkflow` (keyed by pod namespace and workflow name; `none` = lookup
error), and the outcomes of `UpdateWorkflow` and `common.AddPodLabel`. -/
structure ClusterEnv where
  getWorkflow : String → String → Option Workflow
  updateWorkflowOk : Bool
  addPodLabelOk : Bool

/-- The observable effects of one `handlePodUpdate` call: the attempted
workflow write (if any), whether the `completed=true` pod labelling was
attempted and whether it succeeded, the completed-pod-cache insertion (if
any), and the local node value at the completion-label section (set exactly
when control reaches lines 469-487; `none` on every early return). -/
structure HandleResult where
  workflowWrite : Option Workflow
  labelAttempted : Bool
  labelSucceeded : Bool
  cacheInsert : Option String
  finalNode : Option NodeStatus
deriving DecidableEq, Repr

/-- A `return` before any effect: nothing written, nothing labelled,
nothing cached. -/
def noResult : HandleResult :=
  { workflowWrite := none, labelAttempted := false, labelSucceeded := false
    cacheInsert := none, finalNode := none }

/-- The completed-pod cache after a call: `SetDefault` prepends the
inserted name. -/
def HandleResult.newCache (r : HandleResult) (cache : List String) :
    List String :=
  match r.cacheInsert with
  | some k => k :: cache
  | none => cache

/-- The completion-label section at the end of `handlePodUpdate` (lines
469-487): a completed, non-daemoned node gets the `completed=true` pod
label, and only a successful labelling inserts the pod name into the
completed-pod cache; a completed daemoned node deliberately skips
labelling. -/
def completedLabelSection (addPodLabelOk : Bool) (write : Option Workflow)
    (podName : String) (node : NodeStatus) : HandleResult :=
  if node.Completed then
    if ¬node.IsDaemoned then
      if addPodLabelOk then
        { workflowWrite := write, labelAttempted := true
          labelSucceeded := true, cacheInsert := some podName
          finalNode := some node }
      else
        { workflowWrite := write, labelAttempted := true
          labelSucceeded := false, cacheInsert := none
          finalNode := some node }
    else
      { workflowWrite := write, labelAttempted := false
        labelSucceeded := false, cacheInsert := none
        finalNode := some node }
  else
    { workflowWrite := write, labelAttempted := false
      labelSucceeded := false, cacheInsert := none
      finalNode := some node }

/-- The `switch pod.Status.Phase` of `handlePodUpdate`, deriving
`(newPhase, newDaemonStatus, message)`; `none` models the early `return`s
(Pending pod, missing or undecodable template annotation, non-daemon
template, a not-ready container).  Template JSON decoding is passed in as
`decodeTemplate`; `π` is the map iteration order for `inferFailedReason`. -/
def deriveNewState (decodeTemplate : String → Option Template)
    (π : List (String × String) → List (String × String)) (pod : Pod) :
    Option (NodePhase × Option Bool × String) :=
  match pod.statusPhase with
  | .Pending => none
  | .Succeeded => some (.Succeeded, some false, "")
  | .Failed => some (inferFailedReasonOrd π pod)
  | .Running =>
    match pod.annotTemplate with
    | none => none
    | some tmplStr =>
      match decodeTemplate tmplStr with
      | none => none
      | some tmpl =>
        match tmpl.daemon with
        | none => none
        | some d =>
          if ¬d then none
          else if pod.containerStatuses.all (fun c => c.ready) then
            some (.Succeeded, some true, "")
          else none
  | .Unknown => some (.Error, none, "")

/-- `handlePodUpdate`: the completed-pod-cache check, the `completed=true`
label check, the workflow back-reference lookup, the phase derivation, the
workflow and node lookups, `applyUpdates`, the conditional workflow write
(an update failure returns before the labelling section), and the
completion labelling with its cache insertion. -/
def handlePodUpdate (env : ClusterEnv)
    (decodeTemplate : String → Option Template)
    (decodeOutputs : String → Option Outputs)
    (π : List (String × String) → List (String × String)) (now : Nat)
    (cache : List String) (pod : Pod) : HandleResult :=
  if pod.name ∈ cache then noResult
  else if pod.labelCompleted.getD "" = "true" then noResult
  else
    match pod.labelWorkflow with
    | none => noResult
    | some workflowName =>
      match deriveNewState decodeTemplate π pod with
      | none => noResult
      | some (newPhase, newDaemonStatus, message) =>
        match env.getWorkflow pod.ns workflowName with
        | none => noResult
        | some wf =>
          match wf.nodes.lookup pod.name with
          | none => noResult
          | some node =>
            let p := applyUpdates decodeOutputs now pod node newPhase
              newDaemonStatus message
            let node := p.1
            let updateNeeded := p.2
            let write : Option Workflow :=
              if updateNeeded then
                some { wf with nodes := insertAssoc wf.nodes pod.name node }
              else none
            if updateNeeded ∧ ¬env.updateWorkflowOk then
              { noResult with workflowWrite := write }
            else completedLabelSection env.addPodLabelOk write pod.name node

/-- `WorkflowControllerConfig`: `executorImage` (empty string = the
`omitempty` zero value, i.e. missing), the artifact repository (opaque to
the core, carried by its raw form), the watch namespace and the label
selectors. -/
structure WorkflowControllerConfig where
  ExecutorImage : String
  ArtifactRepository : Option String
  Namespace : String
  MatchLabels : List (String × String)
deriving DecidableEq, Repr

/-- A config map as `updateConfig` consumes it: the entry of `cm.Data` at
the fixed key `common.WorkflowControllerConfigMapKey` (`none` = key
absent). -/
structure ConfigMap where
  configData : Option String
deriving DecidableEq, Repr

/-- `updateConfig`: reject a missing payload, an unparseable payload
(`yaml.Unmarshal` passed in as `parseConfig`; `none` = parse error), or a
parsed config with empty `executorImage`; otherwise store the parsed
config.  Returns the stored config after the call and whether an error was
returned. -/
def updateConfig (parseConfig : String → Option WorkflowControllerConfig)
    (cm : ConfigMap) (stored : WorkflowControllerConfig) :
    WorkflowControllerConfig × Bool :=
  match cm.configData with
  | none => (stored, true)
  | some configStr =>
    match parseConfig configStr with
    | none => (stored, true)
    | some config =>
      if config.ExecutorImage = "" then (stored, true)
      else (config, false)

/-! ## Helper lemmas on the `applyUpdates` blocks -/

theorem phaseStep_completed_fst (node : NodeStatus) (newPhase : NodePhase)
    (h : node.Completed = true) : (phaseStep node newPhase).1 = node := by
  unfold phaseStep
  split
  · simp [h]
  · rfl

theorem daemonStep_fst_phase (pod : Pod) (node : NodeStatus)
    (nds : Option Bool) : ((daemonStep pod node nds).1).phase = node.phase := by
  unfold daemonStep
  repeat' (first | split | dsimp only)

theorem daemonStep_fst_outputs (pod : Pod) (node : NodeStatus)
    (nds : Option Bool) : ((daemonStep pod node nds).1).outputs = node.outputs := by
  unfold daemonStep
  repeat' (first | split | dsimp only)

theorem daemonStep_fst_finishedAt (pod : Pod) (node : NodeStatus)
    (nds : Option Bool) :
    ((daemonStep pod node nds).1).finishedAt = node.finishedAt := by
  unfold daemonStep
  repeat' (first | split | dsimp only)

theorem outputsStep_fst_phase_of_decodable (decodeOutputs : String → Option Outputs)
    (pod : Pod) (node : NodeStatus)
    (h : ∀ s, pod.annotOutputs = some s → node.outputs = none →
      decodeOutputs s ≠ none) :
    ((outputsStep decodeOutputs pod node).1).phase = node.phase := by
  unfold outputsStep
  cases hs : pod.annotOutputs with
  | none => rfl
  | some s =>
    by_cases ho : node.outputs = none
    · cases hd : decodeOutputs s with
      | none => exact absurd hd (h s hs ho)
      | some o => simp [ho, hd]
    · simp [ho]

theorem outputsStep_fst_phase_error (decodeOutputs : String → Option Outputs)
    (pod : Pod) (node : NodeStatus) (s : String)
    (hs : pod.annotOutputs = some s) (ho : node.outputs = none)
    (hd : decodeOutputs s = none) :
    ((outputsStep decodeOutputs pod node).1).phase = .Error := by
  simp [outputsStep, hs, ho, hd]

theorem outputsStep_fst_finishedAt (decodeOutputs : String → Option Outputs)
    (pod : Pod) (node : NodeStatus) :
    ((outputsStep decodeOutputs pod node).1).finishedAt = node.finishedAt := by
  unfold outputsStep
  repeat' (first | split | dsimp only)

theorem messageStep_phase (node : NodeStatus) (message : String) :
    (messageStep node message).phase = node.phase := by
  unfold messageStep
  repeat' (first | split | dsimp only)

theorem messageStep_finishedAt (node : NodeStatus) (message : String) :
    (messageStep node message).finishedAt = node.finishedAt := by
  unfold messageStep
  repeat' (first | split | dsimp only)

theorem finishedAtStep_fst_phase (now : Nat) (pod : Pod) (node : NodeStatus) :
    ((finishedAtStep now pod node).1).phase = node.phase := by
  unfold finishedAtStep
  repeat' (first | split | dsimp only)

theorem applyUpdates_fst (decodeOutputs : String → Option Outputs) (now : Nat)
    (pod : Pod) (node : NodeStatus) (newPhase : NodePhase)
    (nds : Option Bool) (message : String) :
    (applyUpdates decodeOutputs now pod node newPhase nds message).1 =
      (finishedAtStep now pod
        (preFinishedNode decodeOutputs pod node newPhase nds message)).1 := rfl

theorem preFinishedNode_finishedAt (decodeOutputs : String → Option Outputs)
    (pod : Pod) (node : NodeStatus) (newPhase : NodePhase)
    (nds : Option Bool) (message : String) :
    (preFinishedNode decodeOutputs pod node newPhase nds message).finishedAt =
      node.finishedAt := by
  unfold preFinishedNode
  rw [messageStep_finishedAt, outputsStep_fst_finishedAt, daemonStep_fst_finishedAt]
  unfold phaseStep
  repeat' (first | split | dsimp only)

theorem latestTerminatedScan_eq (ctrs : List ContainerStatus) (start : Nat) :
    latestTerminatedScan ctrs start =
      (ctrs.filterMap (fun c => c.terminated.map (fun t => t.finishedAt))).foldl
        max start := by
  induction ctrs generalizing start with
  | nil => rfl
  | cons c rest ih =>
    cases hc : c.terminated with
    | none => simpa [latestTerminatedScan, hc] using ih start
    | some t =>
      have hmax : (if t.finishedAt > start then t.finishedAt else start) =
          max start t.finishedAt := by
        rcases le_or_lt t.finishedAt start with h | h
        · rw [if_neg (by omega), Nat.max_eq_left h]
        · rw [if_pos h, Nat.max_eq_right (Nat.le_of_lt h)]
      simpa [latestTerminatedScan, hc, hmax] using ih (max start t.finishedAt)

theorem latestTerminatedScan_combined (pod : Pod) :
    latestTerminatedScan pod.containerStatuses
      (latestTerminatedScan pod.initContainerStatuses 0) =
      latestTerminatedAt pod := by
  simp [latestTerminatedScan_eq, latestTerminatedAt, List.filterMap_append,
    List.foldl_append]

theorem finishedAtStep_spec (now : Nat) (pod : Pod) (n : NodeStatus)
    (hc : n.Completed = true) (hz : n.finishedAt = 0) :
    (n.IsDaemoned = false →
      ((finishedAtStep now pod n).1).finishedAt =
        (if latestTerminatedAt pod = 0 then now else latestTerminatedAt pod))
    ∧ (n.IsDaemoned = true → ((finishedAtStep now pod n).1).finishedAt = now) := by
  unfold finishedAtStep
  rw [if_pos ⟨hc, hz⟩]
  constructor
  · intro hd
    simp only [hd, hz, Bool.false_eq_true, not_false_eq_true, if_true]
    rw [latestTerminatedScan_combined]
    split <;> simp_all
  · intro hd
    simp [hd, hz]

/-! ## Claim C1 -/

/-- C1 (code bug): `applyUpdates` can return `false` while having changed a
field of the node.  At this input the node message differs from the
non-empty `message` argument and nothing else changes, so the message block
(lines 614-617) assigns `node.Message` without setting `updateNeeded`: the
call returns `false` with `node.message` mutated from "old" to "new", and
the caller then drops the change. -/
theorem applyUpdates_false_yet_node_mutated :
    applyUpdates (fun _ => none) 0
      { name := "p", ns := "d", labelCompleted := none
        labelWorkflow := some "w", annotTemplate := none, annotOutputs := none
        annotNodeMessage := none, statusPhase := .Running, statusMessage := ""
        statusPodIP := "", initContainerStatuses := [], containerStatuses := [] }
      { phase := .Running, daemoned := none, podIP := "", outputs := none
        message := "old", finishedAt := 0 }
      .Running none "new" =
    ({ phase := .Running, daemoned := none, podIP := "", outputs := none
       message := "new", finishedAt := 0 }, false) := by decide

/-! ## Claim C2 -/

/-- C2 (counterexample): a node already terminal on entry can still have its
phase changed by `applyUpdates`.  Here the node is Succeeded, its outputs
are unset, and the pod carries an outputs annotation that fails to decode:
the outputs block sets `node.Phase := Error` with no terminal check. -/
theorem applyUpdates_terminal_phase_counterexample :
    (NodeStatus.Completed
      { phase := .Succeeded, daemoned := none, podIP := "", outputs := none
        message := "", finishedAt := 5 } = true)
    ∧ (applyUpdates (fun _ => none) 0
        { name := "p", ns := "d", labelCompleted := none
          labelWorkflow := some "w", annotTemplate := none
          annotOutputs := some "garbage", annotNodeMessage := none
          statusPhase := .Failed, statusMessage := "", statusPodIP := ""
          initContainerStatuses := [], containerStatuses := [] }
        { phase := .Succeeded, daemoned := none, podIP := "", outputs := none
          message := "", finishedAt := 5 }
        .Succeeded none "").1.phase = .Error := by decide

/-- C2 (amended): for a node already terminal on entry to `applyUpdates`,
`node.phase` is unchanged on return regardless of `newPhase`, unless the
pod carries an outputs annotation, the node's outputs are unset, and the
annotation fails to decode — in which case the phase becomes Error. -/
theorem applyUpdates_terminal_phase_stable
    (decodeOutputs : String → Option Outputs) (now : Nat) (pod : Pod)
    (node : NodeStatus) (newPhase : NodePhase) (nds : Option Bool)
    (message : String) (hterm : node.Completed = true) :
    ((∀ s, pod.annotOutputs = some s → node.outputs = none →
        decodeOutputs s ≠ none) →
      (applyUpdates decodeOutputs now pod node newPhase nds message).1.phase =
        node.phase)
    ∧ (∀ s, pod.annotOutputs = some s → node.outputs = none →
        decodeOutputs s = none →
        (applyUpdates decodeOutputs now pod node newPhase nds message).1.phase =
          .Error) := by
  have hps : (phaseStep node newPhase).1 = node := phaseStep_completed_fst node newPhase hterm
  constructor
  · intro hdec
    rw [applyUpdates_fst, finishedAtStep_fst_phase]
    unfold preFinishedNode
    rw [messageStep_phase, hps]
    rw [outputsStep_fst_phase_of_decodable]
    · exact daemonStep_fst_phase pod node nds
    · intro s hs ho
      exact hdec s hs (by rw [daemonStep_fst_outputs] at ho; exact ho)
  · intro s hs ho hd
    rw [applyUpdates_fst, finishedAtStep_fst_phase]
    unfold preFinishedNode
    rw [messageStep_phase, hps]
    exact outputsStep_fst_phase_error decodeOutputs pod _ s hs
      (by rw [daemonStep_fst_outputs]; exact ho) hd

/-- Witness for `applyUpdates_terminal_phase_stable`: a Succeeded node and a
pod with no outputs annotation keep the Succeeded phase. -/
theorem applyUpdates_terminal_phase_stable_witness :
    (applyUpdates (fun _ => none) 0
      { name := "p", ns := "d", labelCompleted := none
        labelWorkflow := some "w", annotTemplate := none, annotOutputs := none
        annotNodeMessage := none, statusPhase := .Failed, statusMessage := ""
        statusPodIP := "", initContainerStatuses := [], containerStatuses := [] }
      { phase := .Succeeded, daemoned := none, podIP := "", outputs := none
        message := "", finishedAt := 5 }
      .Failed none "boom").1.phase = .Succeeded :=
  (applyUpdates_terminal_phase_stable (fun _ => none) 0
    { name := "p", ns := "d", labelCompleted := none
      labelWorkflow := some "w", annotTemplate := none, annotOutputs := none
      annotNodeMessage := none, statusPhase := .Failed, statusMessage := ""
      statusPodIP := "", initContainerStatuses := [], containerStatuses := [] }
    { phase := .Succeeded, daemoned := none, podIP := "", outputs := none
      message := "", finishedAt := 5 }
    .Failed none "boom" (by decide)).1
    (by intro s hs; simp at hs)

/-! ## Claim C7 -/

/-- C7 (counterexample): the claim says a terminal node with zero
`finishedAt` takes the latest container `terminated.finishedAt`, falling
back to the wall clock only when no container has a terminated timestamp.
But for a daemoned terminal node the container scan is skipped entirely
(`!node.IsDaemoned()` guard): here the main container terminated at 5, yet
`finishedAt` is set to the wall clock 99. -/
theorem applyUpdates_finishedAt_counterexample :
    (NodeStatus.Completed
      { phase := .Succeeded, daemoned := some true, podIP := ""
        outputs := none, message := "", finishedAt := 0 } = true)
    ∧ latestTerminatedAt
        { name := "p", ns := "d", labelCompleted := none
          labelWorkflow := some "w", annotTemplate := none, annotOutputs := none
          annotNodeMessage := none, statusPhase := .Running, statusMessage := ""
          statusPodIP := "", initContainerStatuses := []
          containerStatuses := [⟨"main", false, some ⟨1, "", 5⟩⟩] } = 5
    ∧ (applyUpdates (fun _ => none) 99
        { name := "p", ns := "d", labelCompleted := none
          labelWorkflow := some "w", annotTemplate := none, annotOutputs := none
          annotNodeMessage := none, statusPhase := .Running, statusMessage := ""
          statusPodIP := "", initContainerStatuses := []
          containerStatuses := [⟨"main", false, some ⟨1, "", 5⟩⟩] }
        { phase := .Succeeded, daemoned := some true, podIP := ""
          outputs := none, message := "", finishedAt := 0 }
        .Succeeded (some true) "").1.finishedAt = 99 := by decide

/-- C7 (amended): in `applyUpdates`, a non-zero `finishedAt` is never
overwritten and `finishedAt` is set only when the node (as of the
finishedAt block, i.e. after the phase/daemon/outputs/message blocks) is
terminal; when it is terminal with zero `finishedAt`, a *non-daemoned* node
takes the latest `terminated.finishedAt` across the pod's init and main
containers (the wall clock `now` when no container has a non-zero
terminated timestamp), while a daemoned node always takes `now`. -/
theorem applyUpdates_finishedAt_rule (decodeOutputs : String → Option Outputs)
    (now : Nat) (pod : Pod) (node : NodeStatus) (newPhase : NodePhase)
    (nds : Option Bool) (message : String) :
    (node.finishedAt ≠ 0 →
      (applyUpdates decodeOutputs now pod node newPhase nds message).1.finishedAt =
        node.finishedAt)
    ∧ ((preFinishedNode decodeOutputs pod node newPhase nds message).Completed = false →
      (applyUpdates decodeOutputs now pod node newPhase nds message).1.finishedAt =
        node.finishedAt)
    ∧ ((preFinishedNode decodeOutputs pod node newPhase nds message).Completed = true →
       node.finishedAt = 0 →
       (((preFinishedNode decodeOutputs pod node newPhase nds message).IsDaemoned = false →
          (applyUpdates decodeOutputs now pod node newPhase nds message).1.finishedAt =
            (if latestTerminatedAt pod = 0 then now else latestTerminatedAt pod))
        ∧ ((preFinishedNode decodeOutputs pod node newPhase nds message).IsDaemoned = true →
          (applyUpdates decodeOutputs now pod node newPhase nds message).1.finishedAt =
            now))) := by
  have hfa := preFinishedNode_finishedAt decodeOutputs pod node newPhase nds message
  refine ⟨?_, ?_, ?_⟩
  · intro h
    rw [applyUpdates_fst]
    unfold finishedAtStep
    rw [if_neg (by simp [hfa, h])]
    exact hfa
  · intro h
    rw [applyUpdates_fst]
    unfold finishedAtStep
    rw [if_neg (by simp [h])]
    exact hfa
  · intro hc hz
    have hspec := finishedAtStep_spec now pod
      (preFinishedNode decodeOutputs pod node newPhase nds message) hc (hfa.trans hz)
    exact ⟨fun hd => (applyUpdates_fst decodeOutputs now pod node newPhase nds
        message) ▸ hspec.1 hd,
      fun hd => (applyUpdates_fst decodeOutputs now pod node newPhase nds
        message) ▸ hspec.2 hd⟩

/-- Witness for `applyUpdates_finishedAt_rule`: a Succeeded non-daemoned
node with zero `finishedAt` takes the main container's terminated timestamp
7 rather than the wall clock 3. -/
theorem applyUpdates_finishedAt_rule_witness :
    (applyUpdates (fun _ => none) 3
      { name := "p", ns := "d", labelCompleted := none
        labelWorkflow := some "w", annotTemplate := none, annotOutputs := none
        annotNodeMessage := none, statusPhase := .Succeeded, statusMessage := ""
        statusPodIP := "", initContainerStatuses := []
        containerStatuses := [⟨"main", false, some ⟨0, "", 7⟩⟩] }
      { phase := .Succeeded, daemoned := none, podIP := "", outputs := none
        message := "", finishedAt := 0 }
      .Succeeded (some false) "").1.finishedAt = 7 := by
  have h := (applyUpdates_finishedAt_rule (fun _ => none) 3
    { name := "p", ns := "d", labelCompleted := none
      labelWorkflow := some "w", annotTemplate := none, annotOutputs := none
      annotNodeMessage := none, statusPhase := .Succeeded, statusMessage := ""
      statusPodIP := "", initContainerStatuses := []
      containerStatuses := [⟨"main", false, some ⟨0, "", 7⟩⟩] }
    { phase := .Succeeded, daemoned := none, podIP := "", outputs := none
      message := "", finishedAt := 0 }
    .Succeeded (some false) "").2.2 (by decide) (by decide)
  rw [h.1 (by decide)]
  decide

/-! ## Claim C6 -/

/-- C6: `updateConfig` returns an error and leaves the stored config
unchanged when the payload is absent, fails to parse, or lacks
`executorImage`; a well-formed payload with a non-empty `executorImage`
replaces the stored config without error. -/
theorem updateConfig_rejects_or_replaces
    (parseConfig : String → Option WorkflowControllerConfig)
    (cm : ConfigMap) (stored : WorkflowControllerConfig) :
    (cm.configData = none →
      updateConfig parseConfig cm stored = (stored, true))
    ∧ (∀ s, cm.configData = some s → parseConfig s = none →
        updateConfig parseConfig cm stored = (stored, true))
    ∧ (∀ s c, cm.configData = some s → parseConfig s = some c →
        c.ExecutorImage = "" →
        updateConfig parseConfig cm stored = (stored, true))
    ∧ (∀ s c, cm.configData = some s → parseConfig s = some c →
        c.ExecutorImage ≠ "" →
        updateConfig parseConfig cm stored = (c, false)) := by
  refine ⟨?_, ?_, ?_, ?_⟩ <;> intros <;> simp_all [updateConfig]

/-- Witness for `updateConfig_rejects_or_replaces`: a payload whose parse
fails leaves the stored config in place, with an error. -/
theorem updateConfig_rejects_or_replaces_witness :
    updateConfig (fun _ => none) { configData := some "bad" }
      { ExecutorImage := "img", ArtifactRepository := none, Namespace := ""
        MatchLabels := [] } =
    ({ ExecutorImage := "img", ArtifactRepository := none, Namespace := ""
       MatchLabels := [] }, true) :=
  (updateConfig_rejects_or_replaces (fun _ => none)
    { configData := some "bad" }
    { ExecutorImage := "img", ArtifactRepository := none, Namespace := ""
      MatchLabels := [] }).2.1 "bad" rfl rfl

/-! ## Association list and `failMessages` lemmas -/

theorem mem_insertAssoc {α : Type} (l : List (String × α)) (k : String)
    (v : α) (p : String × α) (h : p ∈ insertAssoc l k v) :
    p ∈ l ∨ p = (k, v) := by
  induction l with
  | nil => simpa [insertAssoc] using h
  | cons q rest ih =>
    obtain ⟨k', v'⟩ := q
    unfold insertAssoc at h
    by_cases hk : k' = k
    · rw [if_pos hk] at h
      rcases List.mem_cons.mp h with h | h
      · exact Or.inr h
      · exact Or.inl (List.mem_cons_of_mem _ h)
    · rw [if_neg hk] at h
      rcases List.mem_cons.mp h with h | h
      · exact Or.inl (h ▸ List.mem_cons_self _ _)
      · rcases ih h with h | h
        · exact Or.inl (List.mem_cons_of_mem _ h)
        · exact Or.inr h

theorem lookup_mem {α : Type} {l : List (String × α)} {k : String} {v : α}
    (h : l.lookup k = some v) : (k, v) ∈ l := by
  induction l with
  | nil => simp [List.lookup] at h
  | cons q rest ih =>
    obtain ⟨k', v'⟩ := q
    rw [List.lookup] at h
    cases hkk : (k == k') with
    | true =>
      rw [hkk] at h
      have hk : k = k' := by simpa using hkk
      have hv : v' = v := by simpa using h
      rw [← hk, hv] at *
      exact List.mem_cons_self _ _
    | false =>
      rw [hkk] at h
      exact List.mem_cons_of_mem _ (ih h)

theorem mem_foldl_failMsgStep (annotatedMsg : String)
    (ctrs : List ContainerStatus) (acc : List (String × String))
    (p : String × String) (h : p ∈ ctrs.foldl (failMsgStep annotatedMsg) acc) :
    p ∈ acc ∨ ∃ c t, c ∈ ctrs ∧ c.name = p.1 ∧ c.terminated = some t ∧
      t.exitCode ≠ 0 ∧ p.2 = failMessageOf annotatedMsg c t := by
  induction ctrs generalizing acc with
  | nil => exact Or.inl h
  | cons c rest ih =>
    rw [List.foldl_cons] at h
    rcases ih (failMsgStep annotatedMsg acc c) h with h' | ⟨c', t', hmem, hname, hterm, hexit, hmsg⟩
    · unfold failMsgStep at h'
      cases hc : c.terminated with
      | none =>
        rw [hc] at h'
        exact Or.inl h'
      | some t =>
        rw [hc] at h'
        dsimp only at h'
        by_cases hz : t.exitCode = 0
        · rw [if_pos hz] at h'
          exact Or.inl h'
        · rw [if_neg hz] at h'
          rcases mem_insertAssoc acc c.name (failMessageOf annotatedMsg c t) p h' with h'' | h''
          · exact Or.inl h''
          · refine Or.inr ⟨c, t, List.mem_cons_self _ _, ?_, hc, hz, ?_⟩
            · rw [h'']
            · rw [h'']
    · exact Or.inr ⟨c', t', List.mem_cons_of_mem _ hmem, hname, hterm, hexit, hmsg⟩

theorem mem_buildFailMessages (annotatedMsg : String)
    (ctrs : List ContainerStatus) (p : String × String)
    (h : p ∈ buildFailMessages annotatedMsg ctrs) :
    ∃ c t, c ∈ ctrs ∧ c.name = p.1 ∧ c.terminated = some t ∧
      t.exitCode ≠ 0 ∧ p.2 = failMessageOf annotatedMsg c t := by
  rcases mem_foldl_failMsgStep annotatedMsg ctrs [] p h with h' | h'
  · cases h'
  · exact h'

/-! ## Claim C3 -/

/-- C3: `inferFailedReason` resolves a Failed pod's (phase, message) by
precedence.  A non-empty `pod.status.message` wins with phase Failed; else
the first init container with a terminated non-zero exit yields phase Error
and the "failed to load artifacts" message suffixed with the first
non-empty of the node-message annotation and the terminated message; else a
failed `main` container (its entry in `failMessages`) yields Failed with
its message, preempting a failed `wait` container, which yields Error; else
a failed sidecar yields Failed with some failed sidecar's message (under
any map iteration order `π`); else Failed with "pod failed for unknown
reason".  The final conjunct ties every `failMessages` entry to an actual
failed container of the pod. -/
theorem inferFailedReason_precedence
    (π : List (String × String) → List (String × String)) (pod : Pod)
    (hπ : ∀ l, List.Perm (π l) l) :
    (pod.statusMessage ≠ "" →
      inferFailedReasonOrd π pod = (.Failed, some false, pod.statusMessage))
    ∧ (∀ c t, pod.statusMessage = "" →
        firstFailedContainer pod.initContainerStatuses = some c →
        c.terminated = some t →
        inferFailedReasonOrd π pod = (.Error, some false,
          suffixFirstNonEmpty "failed to load artifacts"
            (pod.annotNodeMessage.getD "") t.message))
    ∧ (∀ m, pod.statusMessage = "" →
        firstFailedContainer pod.initContainerStatuses = none →
        (buildFailMessages (pod.annotNodeMessage.getD "")
          pod.containerStatuses).lookup MainContainerName = some m →
        inferFailedReasonOrd π pod = (.Failed, some false, m))
    ∧ (∀ m, pod.statusMessage = "" →
        firstFailedContainer pod.initContainerStatuses = none →
        (buildFailMessages (pod.annotNodeMessage.getD "")
          pod.containerStatuses).lookup MainContainerName = none →
        (buildFailMessages (pod.annotNodeMessage.getD "")
          pod.containerStatuses).lookup WaitContainerName = some m →
        inferFailedReasonOrd π pod = (.Error, some false, m))
    ∧ (pod.statusMessage = "" →
        firstFailedContainer pod.initContainerStatuses = none →
        (buildFailMessages (pod.annotNodeMessage.getD "")
          pod.containerStatuses).lookup MainContainerName = none →
        (buildFailMessages (pod.annotNodeMessage.getD "")
          pod.containerStatuses).lookup WaitContainerName = none →
        buildFailMessages (pod.annotNodeMessage.getD "")
          pod.containerStatuses ≠ [] →
        ∃ m, inferFailedReasonOrd π pod = (.Failed, some false, m) ∧
          m ∈ (buildFailMessages (pod.annotNodeMessage.getD "")
            pod.containerStatuses).map Prod.snd)
    ∧ (pod.statusMessage = "" →
        firstFailedContainer pod.initContainerStatuses = none →
        buildFailMessages (pod.annotNodeMessage.getD "")
          pod.containerStatuses = [] →
        inferFailedReasonOrd π pod =
          (.Failed, some false, "pod failed for unknown reason"))
    ∧ (∀ nm m, (buildFailMessages (pod.annotNodeMessage.getD "")
          pod.containerStatuses).lookup nm = some m →
        ∃ c t, c ∈ pod.containerStatuses ∧ c.name = nm ∧
          c.terminated = some t ∧ t.exitCode ≠ 0 ∧
          m = failMessageOf (pod.annotNodeMessage.getD "") c t) := by
  refine ⟨?_, ?_, ?_, ?_, ?_, ?_, ?_⟩
  · intro h
    simp [inferFailedReasonOrd, h]
  · intro c t hsm hff hct
    simp [inferFailedReasonOrd, hsm, hff, hct]
  · intro m hsm hff hmain
    simp [inferFailedReasonOrd, hsm, hff, hmain]
  · intro m hsm hff hmain hwait
    simp [inferFailedReasonOrd, hsm, hff, hmain, hwait]
  · intro hsm hff hmain hwait hne
    cases hl : π (buildFailMessages (pod.annotNodeMessage.getD "")
        pod.containerStatuses) with
    | nil =>
      exfalso
      apply hne
      have hperm := hπ (buildFailMessages (pod.annotNodeMessage.getD "")
        pod.containerStatuses)
      rw [hl] at hperm
      exact (List.Perm.eq_nil hperm.symm)
    | cons q restl =>
      obtain ⟨k, m⟩ := q
      refine ⟨m, ?_, ?_⟩
      · simp [inferFailedReasonOrd, hsm, hff, hmain, hwait, hl]
      · have hp : (k, m) ∈ π (buildFailMessages (pod.annotNodeMessage.getD "")
            pod.containerStatuses) := by
          rw [hl]
          exact List.mem_cons_self _ _
        exact List.mem_map.mpr ⟨(k, m), (hπ _).mem_iff.mp hp, rfl⟩
  · intro hsm hff hnil
    have hπnil : π [] = [] := List.Perm.eq_nil (hπ [])
    simp [inferFailedReasonOrd, hsm, hff, hnil, hπnil]
  · intro nm m hlk
    exact mem_buildFailMessages _ _ _ (lookup_mem hlk)

/-- Witness for `inferFailedReason_precedence`: a pod whose main container
failed with "oom" and whose wait container failed resolves to
(Failed, "oom"). -/
theorem inferFailedReason_precedence_witness :
    inferFailedReasonOrd id
      { name := "p", ns := "d", labelCompleted := none
        labelWorkflow := some "w", annotTemplate := none, annotOutputs := none
        annotNodeMessage := none, statusPhase := .Failed, statusMessage := ""
        statusPodIP := "", initContainerStatuses := []
        containerStatuses := [⟨"main", false, some ⟨2, "oom", 3⟩⟩,
          ⟨"wait", false, some ⟨1, "upload 500", 3⟩⟩] } =
      (.Failed, some false, "oom") :=
  (inferFailedReason_precedence id
    { name := "p", ns := "d", labelCompleted := none
      labelWorkflow := some "w", annotTemplate := none, annotOutputs := none
      annotNodeMessage := none, statusPhase := .Failed, statusMessage := ""
      statusPodIP := "", initContainerStatuses := []
      containerStatuses := [⟨"main", false, some ⟨2, "oom", 3⟩⟩,
        ⟨"wait", false, some ⟨1, "upload 500", 3⟩⟩] }
    (fun l => List.Perm.refl l)).2.2.1 "oom" rfl rfl (by decide)

/-! ## Claim C8 -/

/-- C8 (counterexample): `inferFailedReason` iterates the `failMessages` Go
map, whose iteration order is unspecified, in the sidecar-fallback branch.
For a pod with two failed sidecars carrying distinct messages, two
legitimate iteration orders (declaration order and its reverse, a
permutation) give different messages, so two invocations need not be
byte-identical. -/
theorem inferFailedReason_order_counterexample :
    List.Perm
      (List.reverse (buildFailMessages ""
        [⟨"a", false, some ⟨1, "x", 0⟩⟩, ⟨"b", false, some ⟨1, "y", 0⟩⟩]))
      (buildFailMessages ""
        [⟨"a", false, some ⟨1, "x", 0⟩⟩, ⟨"b", false, some ⟨1, "y", 0⟩⟩])
    ∧ inferFailedReasonOrd List.reverse
        { name := "p", ns := "d", labelCompleted := none
          labelWorkflow := some "w", annotTemplate := none
          annotOutputs := none, annotNodeMessage := none
          statusPhase := .Failed, statusMessage := "", statusPodIP := ""
          initContainerStatuses := []
          containerStatuses := [⟨"a", false, some ⟨1, "x", 0⟩⟩,
            ⟨"b", false, some ⟨1, "y", 0⟩⟩] } ≠
      inferFailedReasonOrd id
        { name := "p", ns := "d", labelCompleted := none
          labelWorkflow := some "w", annotTemplate := none
          annotOutputs := none, annotNodeMessage := none
          statusPhase := .Failed, statusMessage := "", statusPodIP := ""
          initContainerStatuses := []
          containerStatuses := [⟨"a", false, some ⟨1, "x", 0⟩⟩,
            ⟨"b", false, some ⟨1, "y", 0⟩⟩] } :=
  ⟨List.reverse_perm _, by decide⟩

/-- C8 (amended): two invocations of `inferFailedReason` on the same pod
agree on the phase and the daemon flag under any two map iteration orders;
the message also agrees, except when the sidecar-fallback loop decides it,
in which case each invocation still returns the failure message of some
failed container recorded in `failMessages`. -/
theorem inferFailedReason_order_invariance
    (π₁ π₂ : List (String × String) → List (String × String)) (pod : Pod)
    (h₁ : ∀ l, List.Perm (π₁ l) l) (h₂ : ∀ l, List.Perm (π₂ l) l) :
    (inferFailedReasonOrd π₁ pod).1 = (inferFailedReasonOrd π₂ pod).1
    ∧ (inferFailedReasonOrd π₁ pod).2.1 = (inferFailedReasonOrd π₂ pod).2.1
    ∧ ((inferFailedReasonOrd π₁ pod).2.2 = (inferFailedReasonOrd π₂ pod).2.2
       ∨ ((inferFailedReasonOrd π₁ pod).2.2 ∈
            (buildFailMessages (pod.annotNodeMessage.getD "")
              pod.containerStatuses).map Prod.snd
          ∧ (inferFailedReasonOrd π₂ pod).2.2 ∈
            (buildFailMessages (pod.annotNodeMessage.getD "")
              pod.containerStatuses).map Prod.snd)) := by
  by_cases hsm : pod.statusMessage = ""
  · cases hff : firstFailedContainer pod.initContainerStatuses with
    | some c => simp [inferFailedReasonOrd, hsm, hff]
    | none =>
      cases hmain : (buildFailMessages (pod.annotNodeMessage.getD "")
          pod.containerStatuses).lookup MainContainerName with
      | some m => simp [inferFailedReasonOrd, hsm, hff, hmain]
      | none =>
        cases hwait : (buildFailMessages (pod.annotNodeMessage.getD "")
            pod.containerStatuses).lookup WaitContainerName with
        | some m => simp [inferFailedReasonOrd, hsm, hff, hmain, hwait]
        | none =>
          by_cases hl : buildFailMessages (pod.annotNodeMessage.getD "")
              pod.containerStatuses = []
          · have e1 : π₁ [] = [] := List.Perm.eq_nil (h₁ [])
            have e2 : π₂ [] = [] := List.Perm.eq_nil (h₂ [])
            simp [inferFailedReasonOrd, hsm, hff, hmain, hwait, hl, e1, e2]
          · have ne1 : π₁ (buildFailMessages (pod.annotNodeMessage.getD "")
                pod.containerStatuses) ≠ [] := by
              intro he
              have hperm := h₁ (buildFailMessages (pod.annotNodeMessage.getD "")
                pod.containerStatuses)
              rw [he] at hperm
              exact hl (List.Perm.eq_nil hperm.symm)
            have ne2 : π₂ (buildFailMessages (pod.annotNodeMessage.getD "")
                pod.containerStatuses) ≠ [] := by
              intro he
              have hperm := h₂ (buildFailMessages (pod.annotNodeMessage.getD "")
                pod.containerStatuses)
              rw [he] at hperm
              exact hl (List.Perm.eq_nil hperm.symm)
            cases hp1 : π₁ (buildFailMessages (pod.annotNodeMessage.getD "")
                pod.containerStatuses) with
            | nil => exact absurd hp1 ne1
            | cons q1 r1 =>
              cases hp2 : π₂ (buildFailMessages (pod.annotNodeMessage.getD "")
                  pod.containerStatuses) with
              | nil => exact absurd hp2 ne2
              | cons q2 r2 =>
                obtain ⟨k1, m1⟩ := q1
                obtain ⟨k2, m2⟩ := q2
                have hm1 : (k1, m1) ∈ buildFailMessages
                    (pod.annotNodeMessage.getD "") pod.containerStatuses :=
                  (h₁ _).mem_iff.mp (hp1 ▸ List.mem_cons_self _ _)
                have hm2 : (k2, m2) ∈ buildFailMessages
                    (pod.annotNodeMessage.getD "") pod.containerStatuses :=
                  (h₂ _).mem_iff.mp (hp2 ▸ List.mem_cons_self _ _)
                refine ⟨?_, ?_, Or.inr ⟨?_, ?_⟩⟩
                · simp [inferFailedReasonOrd, hsm, hff, hmain, hwait, hp1, hp2]
                · simp [inferFailedReasonOrd, hsm, hff, hmain, hwait, hp1, hp2]
                · simp only [inferFailedReasonOrd, hsm, hff, hmain, hwait, hp1]
                  simp [hsm, hff, hmain, hwait, hp1]
                  exact ⟨k1, hm1⟩
                · simp only [inferFailedReasonOrd, hsm, hff, hmain, hwait, hp2]
                  simp [hsm, hff, hmain, hwait, hp2]
                  exact ⟨k2, hm2⟩
  · simp [inferFailedReasonOrd, hsm]

/-- Witness for `inferFailedReason_order_invariance`: with a single failed
sidecar the two orders id and reverse agree on the phase. -/
theorem inferFailedReason_order_invariance_witness :
    (inferFailedReasonOrd id
      { name := "p", ns := "d", labelCompleted := none
        labelWorkflow := some "w", annotTemplate := none, annotOutputs := none
        annotNodeMessage := none, statusPhase := .Failed, statusMessage := ""
        statusPodIP := "", initContainerStatuses := []
        containerStatuses := [⟨"db", false, some ⟨137, "killed", 0⟩⟩] }).1 =
    (inferFailedReasonOrd List.reverse
      { name := "p", ns := "d", labelCompleted := none
        labelWorkflow := some "w", annotTemplate := none, annotOutputs := none
        annotNodeMessage := none, statusPhase := .Failed, statusMessage := ""
        statusPodIP := "", initContainerStatuses := []
        containerStatuses := [⟨"db", false, some ⟨137, "killed", 0⟩⟩] }).1 :=
  (inferFailedReason_order_invariance id List.reverse
    { name := "p", ns := "d", labelCompleted := none
      labelWorkflow := some "w", annotTemplate := none, annotOutputs := none
      annotNodeMessage := none, statusPhase := .Failed, statusMessage := ""
      statusPodIP := "", initContainerStatuses := []
      containerStatuses := [⟨"db", false, some ⟨137, "killed", 0⟩⟩] }
    (fun l => List.Perm.refl l) (fun l => List.reverse_perm l)).1

/-! ## Shape of `handlePodUpdate` results -/

theorem handlePodUpdate_shape (env : ClusterEnv)
    (dt : String → Option Template) (dO : String → Option Outputs)
    (π : List (String × String) → List (String × String)) (now : Nat)
    (cache : List String) (pod : Pod) :
    (∃ w, handlePodUpdate env dt dO π now cache pod =
      { noResult with workflowWrite := w }) ∨
    (∃ w n, handlePodUpdate env dt dO π now cache pod =
      completedLabelSection env.addPodLabelOk w pod.name n) := by
  unfold handlePodUpdate
  repeat' (first | split | dsimp only)
  all_goals first
    | (left; exact ⟨_, rfl⟩)
    | (right; exact ⟨_, _, rfl⟩)

theorem completedLabelSection_finalNode (ok : Bool) (w : Option Workflow)
    (nm : String) (n : NodeStatus) :
    (completedLabelSection ok w nm n).finalNode = some n := by
  unfold completedLabelSection
  repeat' (first | split | dsimp only)

theorem completedLabelSection_props (ok : Bool) (w : Option Workflow)
    (nm : String) (n : NodeStatus) :
    ((completedLabelSection ok w nm n).labelAttempted = true ↔
      (n.Completed = true ∧ n.IsDaemoned = false))
    ∧ ((completedLabelSection ok w nm n).cacheInsert = some nm ↔
      ((completedLabelSection ok w nm n).labelAttempted = true ∧
       (completedLabelSection ok w nm n).labelSucceeded = true))
    ∧ ((completedLabelSection ok w nm n).cacheInsert = none ∨
       (completedLabelSection ok w nm n).cacheInsert = some nm) := by
  unfold completedLabelSection
  repeat' (first | split | dsimp only) <;> simp_all

/-! ## Claim C4 -/

/-- C4: a pod observation carrying the `completed=true` label or whose name
is in the completed-pod cache is dropped by `handlePodUpdate` before any
effect: no workflow write, no pod label write, and the cache is
unchanged. -/
theorem handlePodUpdate_completed_pod_skipped (env : ClusterEnv)
    (dt : String → Option Template) (dO : String → Option Outputs)
    (π : List (String × String) → List (String × String)) (now : Nat)
    (cache : List String) (pod : Pod)
    (h : pod.labelCompleted.getD "" = "true" ∨ pod.name ∈ cache) :
    (handlePodUpdate env dt dO π now cache pod).workflowWrite = none
    ∧ (handlePodUpdate env dt dO π now cache pod).labelAttempted = false
    ∧ (handlePodUpdate env dt dO π now cache pod).newCache cache = cache := by
  have hres : handlePodUpdate env dt dO π now cache pod = noResult := by
    unfold handlePodUpdate
    rcases h with h | h
    · by_cases hc : pod.name ∈ cache
      · rw [if_pos hc]
      · rw [if_neg hc, if_pos h]
    · rw [if_pos h]
  rw [hres]
  exact ⟨rfl, rfl, rfl⟩

/-- Witness for `handlePodUpdate_completed_pod_skipped`: a pod labelled
`completed=true` produces no effect. -/
theorem handlePodUpdate_completed_pod_skipped_witness :
    (handlePodUpdate ⟨fun _ _ => none, true, true⟩ (fun _ => none)
      (fun _ => none) id 0 []
      { name := "p", ns := "d", labelCompleted := some "true"
        labelWorkflow := some "w", annotTemplate := none, annotOutputs := none
        annotNodeMessage := none, statusPhase := .Succeeded, statusMessage := ""
        statusPodIP := "", initContainerStatuses := []
        containerStatuses := [] }).workflowWrite = none
    ∧ (handlePodUpdate ⟨fun _ _ => none, true, true⟩ (fun _ => none)
      (fun _ => none) id 0 []
      { name := "p", ns := "d", labelCompleted := some "true"
        labelWorkflow := some "w", annotTemplate := none, annotOutputs := none
        annotNodeMessage := none, statusPhase := .Succeeded, statusMessage := ""
        statusPodIP := "", initContainerStatuses := []
        containerStatuses := [] }).labelAttempted = false
    ∧ (handlePodUpdate ⟨fun _ _ => none, true, true⟩ (fun _ => none)
      (fun _ => none) id 0 []
      { name := "p", ns := "d", labelCompleted := some "true"
        labelWorkflow := some "w", annotTemplate := none, annotOutputs := none
        annotNodeMessage := none, statusPhase := .Succeeded, statusMessage := ""
        statusPodIP := "", initContainerStatuses := []
        containerStatuses := [] }).newCache [] = [] :=
  handlePodUpdate_completed_pod_skipped ⟨fun _ _ => none, true, true⟩
    (fun _ => none) (fun _ => none) id 0 []
    { name := "p", ns := "d", labelCompleted := some "true"
      labelWorkflow := some "w", annotTemplate := none, annotOutputs := none
      annotNodeMessage := none, statusPhase := .Succeeded, statusMessage := ""
      statusPodIP := "", initContainerStatuses := []
      containerStatuses := [] } (Or.inl rfl)

/-! ## Claim C5 -/

/-- C5: when `handlePodUpdate` reaches its completion-label section (its
`finalNode` is the node value `n` there), the pod labelling is attempted
exactly when `n` is terminal and not daemoned; the pod's name goes into the
completed-pod cache exactly when that labelling was attempted and
succeeded; and a terminal daemoned node is never labelled. -/
theorem handlePodUpdate_completed_labeling (env : ClusterEnv)
    (dt : String → Option Template) (dO : String → Option Outputs)
    (π : List (String × String) → List (String × String)) (now : Nat)
    (cache : List String) (pod : Pod) (n : NodeStatus)
    (h : (handlePodUpdate env dt dO π now cache pod).finalNode = some n) :
    ((handlePodUpdate env dt dO π now cache pod).labelAttempted = true ↔
      (n.Completed = true ∧ n.IsDaemoned = false))
    ∧ ((handlePodUpdate env dt dO π now cache pod).cacheInsert = some pod.name ↔
      ((handlePodUpdate env dt dO π now cache pod).labelAttempted = true ∧
       (handlePodUpdate env dt dO π now cache pod).labelSucceeded = true))
    ∧ (n.Completed = true → n.IsDaemoned = true →
      (handlePodUpdate env dt dO π now cache pod).labelAttempted = false) := by
  rcases handlePodUpdate_shape env dt dO π now cache pod with ⟨w, hw⟩ | ⟨w, n', hw⟩
  · rw [hw] at h
    exact absurd h (by simp [noResult])
  · have hn : n' = n := by
      rw [hw, completedLabelSection_finalNode] at h
      injection h
    rw [hn] at hw
    rw [hw]
    have hp := completedLabelSection_props env.addPodLabelOk w pod.name n
    refine ⟨hp.1, hp.2.1, ?_⟩
    intro hc hd
    cases hla : (completedLabelSection env.addPodLabelOk w pod.name n).labelAttempted
    · rfl
    · have hiff := hp.1.mp hla
      rw [hd] at hiff
      exact absurd hiff.2 (by simp)

/-- Witness for `handlePodUpdate_completed_labeling`: a Succeeded pod whose
node goes terminal gets the label attempt, and its name is cached when
labelling succeeds. -/
theorem handlePodUpdate_completed_labeling_witness :
    (handlePodUpdate
      ⟨fun _ _ => some
        { name := "w"
          nodes := [("p", { phase := .Running, daemoned := none, podIP := ""
                            outputs := none, message := "", finishedAt := 0 })] },
        true, true⟩
      (fun _ => none) (fun _ => none) id 4 []
      { name := "p", ns := "d", labelCompleted := none
        labelWorkflow := some "w", annotTemplate := none, annotOutputs := none
        annotNodeMessage := none, statusPhase := .Succeeded, statusMessage := ""
        statusPodIP := "", initContainerStatuses := []
        containerStatuses := [] }).labelAttempted = true := by
  have h := handlePodUpdate_completed_labeling
    ⟨fun _ _ => some
      { name := "w"
        nodes := [("p", { phase := .Running, daemoned := none, podIP := ""
                          outputs := none, message := "", finishedAt := 0 })] },
      true, true⟩
    (fun _ => none) (fun _ => none) id 4 []
    { name := "p", ns := "d", labelCompleted := none
      labelWorkflow := some "w", annotTemplate := none, annotOutputs := none
      annotNodeMessage := none, statusPhase := .Succeeded, statusMessage := ""
      statusPodIP := "", initContainerStatuses := []
      containerStatuses := [] }
    { phase := .Succeeded, daemoned := none, podIP := "", outputs := none
      message := "", finishedAt := 4 } rfl
  exact h.1.mpr (by decide)

/-! ## Claim C9 -/

/-- C9: for a Running pod whose template annotation decodes to a daemon
template, the derived update is independent of `initContainerStatuses`, and
an empty `containerStatuses` list counts as all-ready: the node is marked
Succeeded with daemon status true; a list with a non-ready container
produces no update. -/
theorem deriveNewState_daemon_readiness (dt : String → Option Template)
    (π : List (String × String) → List (String × String)) (pod : Pod)
    (s : String) (tmpl : Template)
    (hph : pod.statusPhase = .Running)
    (ha : pod.annotTemplate = some s)
    (hdec : dt s = some tmpl)
    (hdaemon : tmpl.daemon = some true) :
    (∀ l, deriveNewState dt π { pod with initContainerStatuses := l } =
      deriveNewState dt π pod)
    ∧ (pod.containerStatuses = [] →
      deriveNewState dt π pod = some (.Succeeded, some true, ""))
    ∧ (pod.containerStatuses.all (fun c => c.ready) = true →
      deriveNewState dt π pod = some (.Succeeded, some true, ""))
    ∧ (pod.containerStatuses.all (fun c => c.ready) = false →
      deriveNewState dt π pod = none) := by
  refine ⟨?_, ?_, ?_, ?_⟩
  · intro l
    simp [deriveNewState, hph, ha, hdec, hdaemon]
  · intro hcs
    simp [deriveNewState, hph, ha, hdec, hdaemon, hcs]
  · intro hall
    simp [deriveNewState, hph, ha, hdec, hdaemon, hall]
  · intro hall
    simp [deriveNewState, hph, ha, hdec, hdaemon, hall]

/-- Witness for `deriveNewState_daemon_readiness`: a Running daemon pod with
no container statuses derives (Succeeded, daemoned, ""). -/
theorem deriveNewState_daemon_readiness_witness :
    deriveNewState (fun _ => some { daemon := some true }) id
      { name := "p", ns := "d", labelCompleted := none
        labelWorkflow := some "w", annotTemplate := some "T"
        annotOutputs := none, annotNodeMessage := none
        statusPhase := .Running, statusMessage := "", statusPodIP := ""
        initContainerStatuses := [⟨"init", false, none⟩]
        containerStatuses := [] } = some (.Succeeded, some true, "") :=
  (deriveNewState_daemon_readiness (fun _ => some { daemon := some true }) id
    { name := "p", ns := "d", labelCompleted := none
      labelWorkflow := some "w", annotTemplate := some "T"
      annotOutputs := none, annotNodeMessage := none
      statusPhase := .Running, statusMessage := "", statusPodIP := ""
      initContainerStatuses := [⟨"init", false, none⟩]
      containerStatuses := [] } "T" { daemon := some true }
    rfl rfl rfl rfl).2.1 rfl

/-! ## Claim C10 -/

theorem handlePodUpdate_cacheInsert_name (env : ClusterEnv)
    (dt : String → Option Template) (dO : String → Option Outputs)
    (π : List (String × String) → List (String × String)) (now : Nat)
    (cache : List String) (pod : Pod) (k : String)
    (h : (handlePodUpdate env dt dO π now cache pod).cacheInsert = some k) :
    k = pod.name := by
  rcases handlePodUpdate_shape env dt dO π now cache pod with ⟨w, hw⟩ | ⟨w, n, hw⟩
  · rw [hw] at h
    exact absurd h (by simp [noResult])
  · rw [hw] at h
    rcases (completedLabelSection_props env.addPodLabelOk w pod.name n).2.2
      with h0 | h0 <;> rw [h0] at h
    · cases h
    · injection h with h
      exact h.symm

/-- C10: the completed-pod cache is keyed by pod name alone: every cache
insertion records exactly `pod.name` (no namespace), and any later
observation of a pod bearing that name — whatever its namespace, and under
any environment — returns at the cache check with no effect at all. -/
theorem handlePodUpdate_cache_by_name_only (env : ClusterEnv)
    (dt : String → Option Template) (dO : String → Option Outputs)
    (π : List (String × String) → List (String × String)) (now : Nat)
    (cache : List String) (pod : Pod) (k : String)
    (h : (handlePodUpdate env dt dO π now cache pod).cacheInsert = some k) :
    k = pod.name ∧
    ∀ (env₂ : ClusterEnv) (dt₂ : String → Option Template)
      (dO₂ : String → Option Outputs)
      (π₂ : List (String × String) → List (String × String)) (now₂ : Nat)
      (pod₂ : Pod), pod₂.name = pod.name →
      handlePodUpdate env₂ dt₂ dO₂ π₂ now₂
        ((handlePodUpdate env dt dO π now cache pod).newCache cache) pod₂ =
        noResult := by
  have hk : k = pod.name :=
    handlePodUpdate_cacheInsert_name env dt dO π now cache pod k h
  refine ⟨hk, ?_⟩
  intro env₂ dt₂ dO₂ π₂ now₂ pod₂ hn
  have hcache : (handlePodUpdate env dt dO π now cache pod).newCache cache =
      k :: cache := by
    unfold HandleResult.newCache
    rw [h]
  rw [hcache]
  unfold handlePodUpdate
  rw [if_pos (by simp [hn, hk])]

/-- Witness for `handlePodUpdate_cache_by_name_only`: after the cache picks
up pod `p` of namespace `d`, a pod named `p` from namespace `other` is
dropped at the cache check. -/
theorem handlePodUpdate_cache_by_name_only_witness :
    handlePodUpdate ⟨fun _ _ => none, true, true⟩ (fun _ => none)
      (fun _ => none) id 9
      ((handlePodUpdate
        ⟨fun _ _ => some
          { name := "w"
            nodes := [("p", { phase := .Running, daemoned := none, podIP := ""
                              outputs := none, message := "", finishedAt := 0 })] },
          true, true⟩
        (fun _ => none) (fun _ => none) id 4 []
        { name := "p", ns := "d", labelCompleted := none
          labelWorkflow := some "w", annotTemplate := none
          annotOutputs := none, annotNodeMessage := none
          statusPhase := .Succeeded, statusMessage := "", statusPodIP := ""
          initContainerStatuses := [], containerStatuses := [] }).newCache [])
      { name := "p", ns := "other", labelCompleted := none
        labelWorkflow := some "w", annotTemplate := none, annotOutputs := none
        annotNodeMessage := none, statusPhase := .Failed, statusMessage := ""
        statusPodIP := "", initContainerStatuses := []
        containerStatuses := [] } = noResult :=
  (handlePodUpdate_cache_by_name_only
    ⟨fun _ _ => some
      { name := "w"
        nodes := [("p", { phase := .Running, daemoned := none, podIP := ""
                          outputs := none, message := "", finishedAt := 0 })] },
      true, true⟩
    (fun _ => none) (fun _ => none) id 4 []
    { name := "p", ns := "d", labelCompleted := none
      labelWorkflow := some "w", annotTemplate := none, annotOutputs := none
      annotNodeMessage := none, statusPhase := .Succeeded, statusMessage := ""
      statusPodIP := "", initContainerStatuses := []
      containerStatuses := [] } "p" rfl).2
    ⟨fun _ _ => none, true, true⟩ (fun _ => none) (fun _ => none) id 9
    { name := "p", ns := "other", labelCompleted := none
      labelWorkflow := some "w", annotTemplate := none, annotOutputs := none
      annotNodeMessage := none, statusPhase := .Failed, statusMessage := ""
      statusPodIP := "", initContainerStatuses := []
      containerStatuses := [] } rfl

end Argo
